import Mathlib

/-!
Verification development for the `musicsearch` repository (src/main.rs, src/ui.rs):
a shallow embedding of the metadata record model, tag placement, the document
conversion for the tantivy index, document recall, the file-extension filter of
the discovery walk, and effect-level models of the two front ends.

Machine strings are Lean `String`s (the program is UTF-8 throughout via
`Utf8PathBuf`/`String`); Rust `u64` values are `Nat` with an explicit `< 2 ^ 64`
bound where the source's parse can overflow.
-/

set_option autoImplicit false

namespace MusicSearch

/-- Models Rust `str::to_lowercase` (src/main.rs line 87 `key.as_ref().to_lowercase()`).
Character-wise lowercasing; exact on the ASCII range, which covers every tag key the
program's routing distinguishes (full Unicode case mapping is out of scope). -/
def rust_to_lowercase (s : String) : String :=
  String.mk (s.data.map Char.toLower)

/-- Helper for `split_once` on the underlying character list: split at the first
occurrence of `sep`, returning the parts before and after it. -/
def split_once_chars : List Char → Char → Option (List Char × List Char)
  | [], _ => none
  | c :: rest, sep =>
    if c = sep then some ([], rest)
    else (split_once_chars rest sep).map (fun p => (c :: p.1, p.2))

/-- Models Rust `str::split_once` (used at src/main.rs line 96): splits at the first
occurrence of the delimiter, exclusive of the delimiter itself. -/
def split_once (s : String) (sep : Char) : Option (String × String) :=
  (split_once_chars s.data sep).map (fun p => (String.mk p.1, String.mk p.2))

/-- Models src/main.rs line 96: `value.split_once('/').map_or(&*value, |(n, _total)| n)` —
the portion of the tag value before the first `/`, or the whole value if there is none. -/
def track_num_part (value : String) : String :=
  match split_once value '/' with
  | some (n, _total) => n
  | none => value

/-- Models Rust `u64::from_str` (the `i.parse()` at src/main.rs line 98): an optional
leading `+`, then one or more ASCII digits, value below `2 ^ 64`; anything else fails. -/
def parseU64 (s : String) : Option Nat :=
  let ds := match s.data with
    | '+' :: rest => rest
    | other => other
  if ds = [] then none
  else if ds.all (fun c => c.isDigit) then
    let n := ds.foldl (fun a c => a * 10 + (c.toNat - 48)) 0
    if n < 2 ^ 64 then some n else none
  else none

/-- Models the contents of the Rust `HashMap<String, String>` as an association list
(one entry per key). `insert_assoc` is `HashMap::insert`: if the key is present its
value is replaced, otherwise a new entry is added. The real map's *iteration* order is
unspecified (hash-seed dependent) and is handled separately via `ExtrasValueOrder`. -/
def insert_assoc : List (String × String) → String → String → List (String × String)
  | [], k, v => [(k, v)]
  | (k', v') :: rest, k, v =>
    if k' = k then (k, v) :: rest else (k', v') :: insert_assoc rest k v

/-- Key lookup in the association-list model of the `extras` map. -/
def lookup_assoc : List (String × String) → String → Option String
  | [], _ => none
  | (k', v') :: rest, k => if k' = k then some v' else lookup_assoc rest k

/-- The `AudioFile` record (src/main.rs lines 57-76). `track` is a Rust `u64`, modelled
as `Nat` (all values placed into it pass the `< 2 ^ 64` check of `parseU64`); `year` is
declared in the source but never assigned by any code path, so it stays `none`. -/
structure AudioFile where
  file_path : String
  album_artist : Option String
  artist : Option String
  album : Option String
  title : Option String
  track : Option Nat
  date : Option String
  year : Option Nat
  extras : List (String × String)
deriving DecidableEq

/-- `AudioFile::new` (src/main.rs lines 79-84): a default record carrying only the path. -/
def AudioFile.new (path : String) : AudioFile :=
  { file_path := path, album_artist := none, artist := none, album := none,
    title := none, track := none, date := none, year := none, extras := [] }

/-- The routing `match &*k` of `AudioFile::place` (src/main.rs lines 90-107), applied to
the already-lowercased key `k`. The Rust `match` on string literals is the same
first-match chain as these `if` tests; the final arm inserts into `extras`. -/
def place_k (r : AudioFile) (k value : String) : AudioFile :=
  if k = "album_artist" then { r with album_artist := some value }
  else if k = "artist" then { r with artist := some value }
  else if k = "album" then { r with album := some value }
  else if k = "title" then { r with title := some value }
  else if k = "track" then
    match parseU64 (track_num_part value) with
    | some n => { r with track := some n }
    | none => r
  else if k = "date" then { r with date := some value }
  else { r with extras := insert_assoc r.extras k value }

/-- `AudioFile::place` (src/main.rs lines 86-108): lowercase the key, then route. -/
def place (r : AudioFile) (key value : String) : AudioFile :=
  place_k r (rust_to_lowercase key) value

/-- `AudioFile::from_kv_and_path` (src/main.rs lines 110-121): fold every (key, value)
pair of the tag iterator into a fresh record for the path. -/
def from_kv_and_path (path : String) (kv : List (String × String)) : AudioFile :=
  kv.foldl (fun this p => place this p.1 p.2) (AudioFile.new path)

/-- The fixed field set of `HardSchema` (src/main.rs lines 251-260): eight distinct
tantivy `Field` handles. -/
inductive SchemaField where
  | path
  | artist
  | album
  | title
  | track
  | date
  | extras
  | item_type
deriving DecidableEq

/-- A tantivy field value (`OwnedValue`): the program only ever stores strings and u64s. -/
inductive OwnedValue where
  | str (s : String)
  | u64 (n : Nat)
deriving DecidableEq

/-- A `TantivyDocument` as the program builds it: the sequence of (field, value) pairs
in `add_text`/`add_u64` call order. -/
abbrev TantivyDocument := List (SchemaField × OwnedValue)

/-- The STORED flags of `HardSchema::schema` (src/main.rs lines 284-308): every field is
built from `text_stored` (or `INDEXED | STORED` for `track`) except `extras`, which uses
the plain (unstored) `text` options. -/
def is_stored : SchemaField → Bool
  | .extras => false
  | _ => true

/-- The multiset of values the `HashMap::values` iterator of `extras` yields: any
permutation of the stored values. The Rust iteration order is unspecified (it depends on
the map's random hash seed), so `tantivy_store` takes the emitted order explicitly,
constrained by this predicate. -/
def ExtrasValueOrder (r : AudioFile) (vs : List String) : Prop :=
  vs.Perm (r.extras.map Prod.snd)

instance (r : AudioFile) (vs : List String) : Decidable (ExtrasValueOrder r vs) :=
  List.decidablePerm vs (r.extras.map Prod.snd)

/-- `AudioFile::tantivy_store` (src/main.rs lines 123-160). Each `doc.add_text` /
`doc.add_u64` call appends one (field, value) entry; an `if let Some` around a call
contributes zero or one entries. `values` is the order in which `self.extras.values()`
is iterated (see `ExtrasValueOrder`); the blob is their `join(" ")`. -/
def tantivy_store (r : AudioFile) (values : List String) : TantivyDocument :=
  [(SchemaField.path, OwnedValue.str r.file_path)]
  ++ (match r.artist.or r.album_artist with
      | some artist => [(SchemaField.artist, OwnedValue.str artist)]
      | none => [])
  ++ (match r.album with
      | some album => [(SchemaField.album, OwnedValue.str album)]
      | none => [])
  ++ (match r.title with
      | some title => [(SchemaField.title, OwnedValue.str title)]
      | none => [])
  ++ (match r.track with
      | some track => [(SchemaField.track, OwnedValue.u64 track)]
      | none => [])
  ++ (match r.date with
      | some date => [(SchemaField.date, OwnedValue.str date)]
      | none => [])
  ++ [(SchemaField.extras, OwnedValue.str (String.intercalate " " values))]
  ++ [(SchemaField.item_type, OwnedValue.str "song")]

/-- `must_string` (src/main.rs lines 165-171). The source panics (`unreachable!`) on a
non-string value; the model returns `""` there — a case no theorem exercises, since every
document the program recalls is schema-conforming. -/
def must_string : OwnedValue → String
  | .str s => s
  | .u64 _ => ""

/-- `must_u64` (src/main.rs lines 173-179); same panic convention as `must_string`. -/
def must_u64 : OwnedValue → Nat
  | .u64 n => n
  | .str _ => 0

/-- `AudioFile::store_fieldvalue` (src/main.rs lines 162-205): route one stored (field,
value) pair back into the record; `extras` and `item_type` fall through to the
catch-all `_ => ()` and change nothing. -/
def store_fieldvalue (r : AudioFile) (fv : SchemaField × OwnedValue) : AudioFile :=
  match fv.1 with
  | .path => { r with file_path := must_string fv.2 }
  | .artist => { r with artist := some (must_string fv.2) }
  | .album => { r with album := some (must_string fv.2) }
  | .title => { r with title := some (must_string fv.2) }
  | .track => { r with track := some (must_u64 fv.2) }
  | .date => { r with date := some (must_string fv.2) }
  | .extras => r
  | .item_type => r

/-- `AudioFile::tantivy_recall` (src/main.rs lines 207-215): fold every field value of
the document into a fresh record with an empty path. -/
def tantivy_recall (doc : TantivyDocument) : AudioFile :=
  doc.foldl store_fieldvalue (AudioFile.new "")

/-- The document a searcher hands back for a stored address: only the STORED fields
survive the index round trip, in their original order. -/
def stored_view (doc : TantivyDocument) : TantivyDocument :=
  doc.filter (fun fv => is_stored fv.1)

/-- First value a document holds for a field (tantivy `get_first`-style lookup). -/
def doc_first (doc : TantivyDocument) (f : SchemaField) : Option OwnedValue :=
  match doc with
  | [] => none
  | fv :: rest => if fv.1 = f then some fv.2 else doc_first rest f

/-- Bool predicate selecting the non-`extras` entries of a document. -/
def non_extras (fv : SchemaField × OwnedValue) : Bool :=
  match fv.1 with
  | .extras => false
  | _ => true

/-- Models `Utf8Path::extension` (used at src/main.rs line 351) on a file name: the
portion after the last `.`, `none` when there is no `.` or when the only role of the
last `.` is to lead a dot-file (file name starting with `.` and containing no later
`.`). The walk hands this only regular-file names, never `.` or `..`. -/
def extension (fname : String) : Option String :=
  let cs := fname.data
  let after := (cs.reverse.takeWhile (fun c => c != '.')).reverse
  if after.length = cs.length then none
  else if cs.length = after.length + 1 then none
  else some (String.mk after)

/-- `AUDIO_EXT` (src/main.rs lines 23-44): the fixed, case-sensitive extension
allow-list, in source order. -/
def AUDIO_EXT : List String :=
  ["mp3", "flac", "opus", "ape", "ogg", "mka", "webm", "aac", "alac", "m4a", "caf",
   "wma", "wav"]

/-- The acceptance test of `recursive_find_audiofiles` (src/main.rs lines 351-357) for a
regular file with the given file name: reject when there is no extension, otherwise
accept exactly when `AUDIO_EXT.contains` the extension (case-sensitive). -/
def accepts_audio_file (fname : String) : Bool :=
  match extension fname with
  | none => false
  | some ext => AUDIO_EXT.contains ext

/-- The query-parser configuration the program can toggle: tantivy's
`set_conjunction_by_default` switch. -/
structure QueryMode where
  conjunction_by_default : Bool
deriving DecidableEq

/-- The configuration built in `main` (src/main.rs lines 437-438):
`QueryParser::for_index(..)` followed by `qp.set_conjunction_by_default()`. -/
def main_query_mode : QueryMode :=
  { conjunction_by_default := true }

/-- Modelled from the spec: tantivy's term-combination semantics is external library
code; per the spec's Query Engine contract, under conjunction mode a document qualifies
exactly when every term matches it, and under the OR-like mode when any term does.
`mf` abstracts per-term matching over the n-gram-analyzed fields. -/
def search_docs (qm : QueryMode) (mf : String → TantivyDocument → Bool)
    (terms : List String) (docs : List TantivyDocument) : List TantivyDocument :=
  if qm.conjunction_by_default then
    docs.filter (fun d => terms.all (fun t => mf t d))
  else
    docs.filter (fun d => terms.any (fun t => mf t d))

/-- Observable effects of one `render_search` call (src/ui.rs lines 34-62). -/
structure RenderSearchEffect where
  cleared : Bool
  invoked_search : Bool
  rows : List AudioFile
deriving DecidableEq

/-- `render_search` (src/ui.rs lines 34-62): the output list is always cleared first;
on empty input the function returns before touching the parser or the searcher;
otherwise it parses leniently, searches with `TopDocs::with_limit(20)`, and adds one row
per hit, recalling each document. `ranked` is the relevance-ranked list of matching
stored documents the searcher would produce for the query (modelled from the spec:
the searcher itself is external library code; the `with_limit` collector keeps the
first `20` of them). -/
def render_search (search : String) (ranked : List TantivyDocument) :
    RenderSearchEffect :=
  if search = "" then
    { cleared := true, invoked_search := false, rows := [] }
  else
    { cleared := true, invoked_search := true,
      rows := (ranked.take 20).map tantivy_recall }

/-- Observable effects of one iteration of the rustyline REPL loop. -/
structure ReplIterationEffect where
  invoked_search : Bool
  printed_rows : List AudioFile
  printed_latency : Bool
deriving DecidableEq

/-- One iteration of `RustylineUI::spawn_ui`'s loop body (src/ui.rs lines 145-165) on
the line just read: it unconditionally parses the line leniently and searches with
`TopDocs::with_limit(15)`, prints the recalled hits in reverse (oldest first), and
prints the elapsed-latency line only when the input line is non-empty. `ranked` is as
in `render_search` (spec-modelled searcher output for the parsed query). -/
def repl_iteration (line : String) (ranked : List TantivyDocument) :
    ReplIterationEffect :=
  { invoked_search := true
    printed_rows := ((ranked.take 15).reverse).map tantivy_recall
    printed_latency := if line = "" then false else true }

end MusicSearch

namespace MusicSearch

/-- `place` routes purely through the lowercased key. -/
theorem place_eq_place_k (r : AudioFile) (key value : String) :
    place r key value = place_k r (rust_to_lowercase key) value := rfl

/-- A key whose lowercase form is `track` reaches exactly the track-parsing arm. -/
theorem place_track_eq (r : AudioFile) (key value : String)
    (h : rust_to_lowercase key = "track") :
    place r key value =
      match parseU64 (track_num_part value) with
      | some n => { r with track := some n }
      | none => r := by
  rw [place_eq_place_k, h]
  rfl

/-- A key whose lowercase form is none of the six canonical keys lands in `extras`. -/
theorem place_extras_eq (r : AudioFile) (key value : String)
    (h : rust_to_lowercase key ∉
      (["album_artist", "artist", "album", "title", "track", "date"] : List String)) :
    place r key value =
      { r with extras := insert_assoc r.extras (rust_to_lowercase key) value } := by
  rw [place_eq_place_k]
  simp only [List.mem_cons, List.not_mem_nil, or_false, not_or] at h
  obtain ⟨h1, h2, h3, h4, h5, h6⟩ := h
  simp [place_k, h1, h2, h3, h4, h5, h6]

/-- Inserting then looking up the same key in the association-list model yields the
value just written: last write wins. -/
theorem lookup_insert_assoc (l : List (String × String)) (k v : String) :
    lookup_assoc (insert_assoc l k v) k = some v := by
  induction l with
  | nil => simp [insert_assoc, lookup_assoc]
  | cons hd tl ih =>
    by_cases hk : hd.1 = k
    · simp [insert_assoc, lookup_assoc, hk]
    · simp [insert_assoc, lookup_assoc, hk, ih]

/-- The track arm changes no field but `track`. -/
theorem place_track_frame (r : AudioFile) (key v : String)
    (h : rust_to_lowercase key = "track") :
    (place r key v).file_path = r.file_path ∧
    (place r key v).album_artist = r.album_artist ∧
    (place r key v).artist = r.artist ∧
    (place r key v).album = r.album ∧
    (place r key v).title = r.title ∧
    (place r key v).date = r.date ∧
    (place r key v).year = r.year ∧
    (place r key v).extras = r.extras := by
  rw [place_track_eq r key v h]
  cases parseU64 (track_num_part v) <;>
    exact ⟨rfl, rfl, rfl, rfl, rfl, rfl, rfl, rfl⟩

/-- Claim C5: a tag value routed to the track key parses the portion before the first
`/` as a non-negative integer: `"5"` gives track 5, `"5/12"` gives track 5, an
unparsable value such as `"five"` leaves the field as it was, silently (the routing is
total and the record is kept); in general a successful parse stores exactly the parsed
number and a failed parse leaves the whole record unchanged. -/
theorem claim_C5 (r : AudioFile) (key v : String)
    (h : rust_to_lowercase key = "track") :
    (place r key "5").track = some 5 ∧
    (place r key "5/12").track = some 5 ∧
    (place r key "five").track = r.track ∧
    (parseU64 (track_num_part v) = none → place r key v = r) ∧
    (∀ n, parseU64 (track_num_part v) = some n →
      place r key v = { r with track := some n }) := by
  refine ⟨?_, ?_, ?_, ?_, ?_⟩
  · rw [place_track_eq r key "5" h]
    rfl
  · rw [place_track_eq r key "5/12" h]
    rfl
  · rw [place_track_eq r key "five" h]
    rfl
  · intro hn
    rw [place_track_eq r key v h, hn]
  · intro n hn
    rw [place_track_eq r key v h, hn]

/-- Witness for C5 at the key `"Track"` and the value `"5/12"`. -/
theorem claim_C5_witness :
    rust_to_lowercase "Track" = "track" ∧
    (place (AudioFile.new "/x.mp3") "Track" "5/12").track = some 5 :=
  ⟨by decide, (claim_C5 (AudioFile.new "/x.mp3") "Track" "unused" (by decide)).2.1⟩

/-- Claim C6: tag-key placement is case-insensitive — `"Artist"`, `"ARTIST"` and
`"artist"` all populate the canonical artist field, and any two keys with the same
lowercase form place identically; a key lowercasing outside the six canonical keys is
stored in `extras` under its lowercased form, and a repeated write to the same extras
key keeps the last value. -/
theorem claim_C6 (r : AudioFile) (key₁ key₂ v v₁ v₂ : String)
    (hsame : rust_to_lowercase key₁ = rust_to_lowercase key₂)
    (hnc : rust_to_lowercase key₁ ∉
      (["album_artist", "artist", "album", "title", "track", "date"] : List String)) :
    (place r "Artist" v).artist = some v ∧
    (place r "ARTIST" v).artist = some v ∧
    (place r "artist" v).artist = some v ∧
    place r key₁ v = place r key₂ v ∧
    (place r key₁ v).extras = insert_assoc r.extras (rust_to_lowercase key₁) v ∧
    lookup_assoc ((place (place r key₁ v₁) key₁ v₂).extras) (rust_to_lowercase key₁)
      = some v₂ := by
  refine ⟨rfl, rfl, rfl, ?_, ?_, ?_⟩
  · rw [place_eq_place_k, place_eq_place_k, hsame]
  · rw [place_extras_eq r key₁ v hnc]
  · rw [place_extras_eq _ key₁ v₂ hnc, place_extras_eq r key₁ v₁ hnc]
    exact lookup_insert_assoc _ _ _

/-- Witness for C6 at the non-canonical key `"Genre"` (same lowercase as `"GENRE"`). -/
theorem claim_C6_witness :
    rust_to_lowercase "Genre" ∉
      (["album_artist", "artist", "album", "title", "track", "date"] : List String) ∧
    lookup_assoc ((place (place (AudioFile.new "/x") "Genre" "a") "Genre" "b").extras)
      (rust_to_lowercase "Genre") = some "b" :=
  ⟨by decide,
   (claim_C6 (AudioFile.new "/x") "Genre" "GENRE" "z" "a" "b" (by decide)
     (by decide)).2.2.2.2.2⟩

/-- Claim C10: placing a tag whose key lowercases to `track` modifies no field other
than `track`; when the portion before the first `/` does not parse, `track` itself is
also unchanged, so a later malformed track tag never clears an earlier track value —
unlike the other canonical fields, where a later value always overwrites. -/
theorem claim_C10 (r : AudioFile) (key v : String)
    (h : rust_to_lowercase key = "track") :
    (place r key v).file_path = r.file_path ∧
    (place r key v).album_artist = r.album_artist ∧
    (place r key v).artist = r.artist ∧
    (place r key v).album = r.album ∧
    (place r key v).title = r.title ∧
    (place r key v).date = r.date ∧
    (place r key v).year = r.year ∧
    (place r key v).extras = r.extras ∧
    (parseU64 (track_num_part v) = none → (place r key v).track = r.track) ∧
    (place (place r key "7") key "five").track = some 7 ∧
    (place r "artist" v).artist = some v ∧
    (place r "album" v).album = some v ∧
    (place r "title" v).title = some v ∧
    (place r "date" v).date = some v ∧
    (place r "album_artist" v).album_artist = some v := by
  obtain ⟨f1, f2, f3, f4, f5, f6, f7, f8⟩ := place_track_frame r key v h
  refine ⟨f1, f2, f3, f4, f5, f6, f7, f8, ?_, ?_, rfl, rfl, rfl, rfl, rfl⟩
  · intro hn
    rw [place_track_eq r key v h, hn]
  · rw [place_track_eq (place r key "7") key "five" h,
      place_track_eq r key "7" h]
    rfl

/-- Witness for C10 at the key `"TRACK"`: a later malformed track tag does not clear
the earlier track value 7. -/
theorem claim_C10_witness :
    rust_to_lowercase "TRACK" = "track" ∧
    (place (place (AudioFile.new "/x") "TRACK" "7") "TRACK" "five").track = some 7 :=
  ⟨by decide,
   (claim_C10 (AudioFile.new "/x") "TRACK" "oops"
     (by decide)).2.2.2.2.2.2.2.2.2.1⟩

end MusicSearch

namespace MusicSearch

/-- Claim C3 (counterexample): the round trip does not reproduce `artist` exactly — for
a record built with only an `album_artist` tag, the store-side fallback writes the
album artist into the document's artist field, and recall reads it back as the artist,
while the original record's artist is absent. -/
theorem claim_C3_counterexample :
    (tantivy_recall (stored_view (tantivy_store
        (from_kv_and_path "/a.flac" [("album_artist", "X")]) []))).artist
      = some "X" ∧
    (from_kv_and_path "/a.flac" [("album_artist", "X")]).artist = none :=
  ⟨by decide, by decide⟩

set_option maxHeartbeats 1600000 in
/-- Claim C3 (amended): storing a record into the index and recalling an `AudioFile`
from the stored field values reproduces `path`, `album`, `title`, `track` and `date`
exactly; the recalled `artist` is `artist.or album_artist` — exact whenever the
original artist is present or the album artist is absent, and the store-side fallback
value otherwise; `extras` and `item_type` are write-only. -/
theorem claim_C3_amended (r : AudioFile) (vs : List String) :
    (tantivy_recall (stored_view (tantivy_store r vs))).file_path = r.file_path ∧
    (tantivy_recall (stored_view (tantivy_store r vs))).album = r.album ∧
    (tantivy_recall (stored_view (tantivy_store r vs))).title = r.title ∧
    (tantivy_recall (stored_view (tantivy_store r vs))).track = r.track ∧
    (tantivy_recall (stored_view (tantivy_store r vs))).date = r.date ∧
    (tantivy_recall (stored_view (tantivy_store r vs))).artist
      = r.artist.or r.album_artist := by
  obtain ⟨fp, aa, ar, al, ti, tr, da, yr, ex⟩ := r
  cases ar <;> cases aa <;> cases al <;> cases ti <;> cases tr <;> cases da <;>
    exact ⟨rfl, rfl, rfl, rfl, rfl, rfl⟩

set_option maxHeartbeats 1600000 in
/-- Claim C4: the document built for the index copies each present text field verbatim,
fills the artist field from `album_artist` exactly when `artist` is absent (the
document's artist entry is `artist.or album_artist`), joins the extras values by single
spaces into one blob, and always sets `item_type` to the constant `"song"`. -/
theorem claim_C4 (r : AudioFile) (vs : List String) (h : ExtrasValueOrder r vs) :
    doc_first (tantivy_store r vs) SchemaField.path
      = some (OwnedValue.str r.file_path) ∧
    doc_first (tantivy_store r vs) SchemaField.artist
      = (r.artist.or r.album_artist).map OwnedValue.str ∧
    doc_first (tantivy_store r vs) SchemaField.album = r.album.map OwnedValue.str ∧
    doc_first (tantivy_store r vs) SchemaField.title = r.title.map OwnedValue.str ∧
    doc_first (tantivy_store r vs) SchemaField.track = r.track.map OwnedValue.u64 ∧
    doc_first (tantivy_store r vs) SchemaField.date = r.date.map OwnedValue.str ∧
    doc_first (tantivy_store r vs) SchemaField.extras
      = some (OwnedValue.str (String.intercalate " " vs)) ∧
    vs.Perm (r.extras.map Prod.snd) ∧
    doc_first (tantivy_store r vs) SchemaField.item_type
      = some (OwnedValue.str "song") := by
  obtain ⟨fp, aa, ar, al, ti, tr, da, yr, ex⟩ := r
  cases ar <;> cases aa <;> cases al <;> cases ti <;> cases tr <;> cases da <;>
    exact ⟨rfl, rfl, rfl, rfl, rfl, rfl, rfl, h, rfl⟩

/-- Witness for C4 at a record with two extras entries, iterated in the order
`["y", "x"]`. -/
theorem claim_C4_witness :
    ExtrasValueOrder (from_kv_and_path "/m.flac" [("aa", "x"), ("bb", "y")])
      ["y", "x"] ∧
    doc_first (tantivy_store (from_kv_and_path "/m.flac" [("aa", "x"), ("bb", "y")])
        ["y", "x"]) SchemaField.item_type
      = some (OwnedValue.str "song") :=
  ⟨by decide,
   (claim_C4 (from_kv_and_path "/m.flac" [("aa", "x"), ("bb", "y")]) ["y", "x"]
     (by decide)).2.2.2.2.2.2.2.2⟩

/-- Claim C2 (counterexample): `tantivy_store` on the very same record can yield two
different documents. The `extras` map of the record holds two values; the Rust
`HashMap::values` iterator may emit them in either order (`ExtrasValueOrder` holds for
both), and the two space-joined blobs differ, so the documents differ. -/
theorem claim_C2_counterexample :
    ExtrasValueOrder (from_kv_and_path "/m.flac" [("aa", "x"), ("bb", "y")])
      ["x", "y"] ∧
    ExtrasValueOrder (from_kv_and_path "/m.flac" [("aa", "x"), ("bb", "y")])
      ["y", "x"] ∧
    tantivy_store (from_kv_and_path "/m.flac" [("aa", "x"), ("bb", "y")]) ["x", "y"]
      ≠ tantivy_store (from_kv_and_path "/m.flac" [("aa", "x"), ("bb", "y")])
          ["y", "x"] :=
  ⟨by decide, by decide, by decide⟩

/-- Claim C2 (amended): `from_kv_and_path` is deterministic in its inputs, and
`tantivy_store` is deterministic in everything but the extras blob — two runs on the
same record agree on every non-`extras` document entry, and their extras blobs join the
same multiset of values, in the `HashMap`'s unspecified iteration orders. -/
theorem claim_C2_amended (p : String) (kv : List (String × String))
    (r : AudioFile) (vs₁ vs₂ : List String)
    (h₁ : ExtrasValueOrder r vs₁) (h₂ : ExtrasValueOrder r vs₂) :
    from_kv_and_path p kv = from_kv_and_path p kv ∧
    (tantivy_store r vs₁).filter non_extras
      = (tantivy_store r vs₂).filter non_extras ∧
    vs₁.Perm vs₂ := by
  refine ⟨rfl, ?_, List.Perm.trans h₁ (List.Perm.symm h₂)⟩
  simp [tantivy_store, List.filter_append, non_extras]

/-- Witness for C2 (amended) at a record with two extras entries and two distinct
iteration orders. -/
theorem claim_C2_witness :
    ExtrasValueOrder (from_kv_and_path "/m.flac" [("aa", "x"), ("bb", "y")])
      ["x", "y"] ∧
    (["x", "y"] : List String).Perm ["y", "x"] :=
  ⟨by decide,
   (claim_C2_amended "/m.flac" [("aa", "x"), ("bb", "y")]
     (from_kv_and_path "/m.flac" [("aa", "x"), ("bb", "y")]) ["x", "y"] ["y", "x"]
     (by decide) (by decide)).2.2⟩

end MusicSearch

namespace MusicSearch

instance (l₁ l₂ : List String) : Decidable (l₁.Perm l₂) :=
  List.decidablePerm l₁ l₂

/-- Claim C1 (counterexample): the REPL loop body does run a search on an empty input
line — parsing and searching are unconditional in the source — refuting the claim that
the REPL loops again without running a search. -/
theorem claim_C1_counterexample :
    ¬ (repl_iteration "" ([] : List TantivyDocument)).invoked_search = false := by
  decide

/-- Claim C1 (amended): on empty input content the TUI clears its result list and does
not invoke the query parser or the searcher; the REPL invokes the parser and the
searcher on every input line, including the empty one, and for an empty line prints no
latency line before looping for the next line. -/
theorem claim_C1_amended (line : String) (ranked : List TantivyDocument) :
    (render_search "" ranked).cleared = true ∧
    (render_search "" ranked).invoked_search = false ∧
    (render_search "" ranked).rows = [] ∧
    (repl_iteration line ranked).invoked_search = true ∧
    (repl_iteration "" ranked).printed_latency = false :=
  ⟨rfl, rfl, rfl, rfl, rfl⟩

/-- Claim C7: a regular file is accepted as an audio candidate exactly when its
extension is in the fixed case-sensitive allow-list of thirteen extensions; `flac`,
`mp3` and `wav` names are accepted, `txt`, `jpg`, uppercase variants and
extension-less names are rejected. -/
theorem claim_C7 :
    (∀ fname : String, accepts_audio_file fname = true ↔
      ∃ e, extension fname = some e ∧
        e ∈ (["flac", "opus", "ape", "ogg", "mka", "webm", "aac", "alac", "m4a",
              "caf", "wma", "wav", "mp3"] : List String)) ∧
    accepts_audio_file "song.flac" = true ∧
    accepts_audio_file "song.mp3" = true ∧
    accepts_audio_file "song.wav" = true ∧
    accepts_audio_file "notes.txt" = false ∧
    accepts_audio_file "cover.jpg" = false ∧
    accepts_audio_file "song.FLAC" = false ∧
    accepts_audio_file "song.Mp3" = false ∧
    accepts_audio_file "song" = false := by
  have hperm : AUDIO_EXT.Perm
      (["flac", "opus", "ape", "ogg", "mka", "webm", "aac", "alac", "m4a",
        "caf", "wma", "wav", "mp3"] : List String) := by decide
  refine ⟨?_, by decide, by decide, by decide, by decide, by decide, by decide,
    by decide, by decide⟩
  intro fname
  constructor
  · intro hacc
    cases hx : extension fname with
    | none =>
      rw [accepts_audio_file, hx] at hacc
      exact absurd hacc (by decide)
    | some e =>
      rw [accepts_audio_file, hx] at hacc
      exact ⟨e, rfl, hperm.mem_iff.mp (List.mem_of_elem_eq_true hacc)⟩
  · rintro ⟨e, he, hm⟩
    rw [accepts_audio_file, he]
    exact List.elem_eq_true_of_mem (hperm.mem_iff.mpr hm)

/-- Witness for C7: a name with the `opus` extension is accepted. -/
theorem claim_C7_witness : accepts_audio_file "b.opus" = true :=
  (claim_C7.1 "b.opus").mpr ⟨"opus", by decide, by decide⟩

/-- Claim C8: under the query configuration `main` builds — conjunction by default —
a two-term query over an index holding one document matching both terms and one
matching exactly one of them returns only the double-match document. The
term-combination semantics itself is spec-modelled (`search_docs`); the configuration
is the source's `set_conjunction_by_default`. -/
theorem claim_C8 (mf : String → TantivyDocument → Bool) (t₁ t₂ : String)
    (dA dB : TantivyDocument)
    (hA1 : mf t₁ dA = true) (hA2 : mf t₂ dA = true)
    (hB : (mf t₁ dB = true ∧ mf t₂ dB = false) ∨
          (mf t₁ dB = false ∧ mf t₂ dB = true)) :
    search_docs main_query_mode mf [t₁, t₂] [dA, dB] = [dA] := by
  rcases hB with ⟨h1, h2⟩ | ⟨h1, h2⟩ <;>
    simp [search_docs, main_query_mode, hA1, hA2, h1, h2]

/-- Witness for C8 with concrete documents matched on their title entries. -/
theorem claim_C8_witness :
    search_docs main_query_mode
      (fun t d => d.contains (SchemaField.title, OwnedValue.str t)) ["a", "b"]
      [[(SchemaField.title, OwnedValue.str "a"), (SchemaField.title, OwnedValue.str "b")],
       [(SchemaField.title, OwnedValue.str "a")]]
      = [[(SchemaField.title, OwnedValue.str "a"),
          (SchemaField.title, OwnedValue.str "b")]] :=
  claim_C8 (fun t d => d.contains (SchemaField.title, OwnedValue.str t)) "a" "b"
    [(SchemaField.title, OwnedValue.str "a"), (SchemaField.title, OwnedValue.str "b")]
    [(SchemaField.title, OwnedValue.str "a")]
    (by decide) (by decide) (Or.inl ⟨by decide, by decide⟩)

/-- Claim C9: each front end returns at most its top-K cap of hits — the TUI renders
at most 20 rows (`TopDocs::with_limit(20)`), the REPL prints at most 15
(`TopDocs::with_limit(15)`); both caps are in the spec's allowed set. -/
theorem claim_C9 (s : String) (ranked : List TantivyDocument) :
    (render_search s ranked).rows.length ≤ 20 ∧
    (repl_iteration s ranked).printed_rows.length ≤ 15 := by
  constructor
  · by_cases hs : s = "" <;>
      simp [render_search, hs, List.length_take]
  · simp [repl_iteration, List.length_take]

end MusicSearch
